import Mathlib

/-!
Verification of the motion-controller arbiter
(`franka_interface/src/motion_controller_interface.cpp`) and the Cartesian
impedance controller
(`franka_ros_controllers/src/cartesian_impedance_controller.cpp`) of the
`franka_ros_interface` stack, as a shallow embedding in Lean.

Machine doubles are embedded as real numbers; ROS time stamps and durations
(fixed-point sec/nsec pairs) are embedded as rationals.  The external
controller-manager `switchController` primitive is modelled as an oracle
`sw : List String → List String → Bool` giving the outcome of each request.
-/

namespace Franka

/-! ## Controller arbiter: data model -/

/-- Modelled from the spec: the four recognized control-mode codes
(POSITION, VELOCITY, TORQUE, IMPEDANCE) of the `JointCommand` message;
the message definition itself is not under `src/`, only its use. -/
def POSITION_MODE : Int := 1

/-- Modelled from the spec: see `POSITION_MODE`. -/
def VELOCITY_MODE : Int := 2

/-- Modelled from the spec: see `POSITION_MODE`. -/
def TORQUE_MODE : Int := 3

/-- Modelled from the spec: see `POSITION_MODE`. -/
def IMPEDANCE_MODE : Int := 4

/-- The configured controller names (`*_controller_name_` members read from
the parameter server in `MotionControllerInterface::init`, lines 38-64). -/
structure ArbiterConfig where
  jointPosition : String
  jointVelocity : String
  jointTorque : String
  jointImpedance : String
  cartesianPose : String
  cartesianImpedance : String
  cartesianForce : String
  trajectory : String
  defaultController : String
deriving DecidableEq

/-- The list `all_controllers_` as filled in `init` (lines 68-76), in push order. -/
def allControllers (cfg : ArbiterConfig) : List String :=
  [cfg.jointPosition, cfg.jointVelocity, cfg.jointTorque, cfg.jointImpedance,
   cfg.cartesianPose, cfg.cartesianImpedance, cfg.cartesianForce, cfg.trajectory]

/-- The `default_defined` check of `init` (lines 78-85). -/
def defaultDefined (cfg : ArbiterConfig) : Bool :=
  (allControllers cfg).any (fun n => n == cfg.defaultController)

/-- The map `controller_name_to_mode_map_` (lines 87-94).  `std::map::operator[]`
assignment: a later assignment to a colliding key overwrites an earlier one,
so lookups test the latest assignment first; a name never assigned reads as a
value-initialized `int`, i.e. `0`. -/
def modeMap (cfg : ArbiterConfig) (name : String) : Int :=
  if name = cfg.trajectory then -1
  else if name = cfg.cartesianImpedance then -1
  else if name = cfg.cartesianForce then -1
  else if name = cfg.cartesianPose then -1
  else if name = cfg.jointVelocity then VELOCITY_MODE
  else if name = cfg.jointImpedance then IMPEDANCE_MODE
  else if name = cfg.jointTorque then TORQUE_MODE
  else if name = cfg.jointPosition then POSITION_MODE
  else 0

/-- The mutable arbiter state: `current_mode_`, `current_controller_name_`,
the latched last-command stamp (`box_cmd_timeout_`, empty until the first
successful command) and the latched timeout length (`box_timeout_length_`,
always set by `init`). -/
structure ArbiterState where
  currentMode : Int
  currentController : String
  lastCmdTime : Option ℚ
  timeoutLength : ℚ
deriving DecidableEq

/-- A request issued to the external `switchController` primitive:
the start list and the stop list, in push order. -/
structure SwitchRequest where
  start : List String
  stop : List String
deriving DecidableEq

/-- Outcome of `MotionControllerInterface::switchControllers`: the returned
boolean, the arbiter state after the call, and the request issued to the
external primitive (`none` when no request was made). -/
structure SwitchOutcome where
  ok : Bool
  state : ArbiterState
  req : Option SwitchRequest
deriving DecidableEq

/-- Embeds `MotionControllerInterface::init` (lines 34-117): `current_mode_ = -1`,
`current_controller_name_ = default_controller_name_`, no command stamp yet,
and the configured timeout clamped by `std::min(1.0, std::max(0.0, ·))`
(lines 107-111). -/
def arbiterInit (cfg : ArbiterConfig) (commandTimeoutParam : ℚ) : ArbiterState :=
  { currentMode := -1
    currentController := cfg.defaultController
    lastCmdTime := none
    timeoutLength := min 1 (max 0 commandTimeoutParam) }

/-- The start/stop lists built by the `switch` statement of
`switchControllers` (lines 181-227): `some (start, stop)` for the four
recognized modes, `none` for the `default:` branch. -/
def controllerListsFor (cfg : ArbiterConfig) (mode : Int) :
    Option (List String × List String) :=
  if mode = POSITION_MODE then
    some ([cfg.jointPosition],
      [cfg.jointImpedance, cfg.jointTorque, cfg.jointVelocity, cfg.cartesianPose,
       cfg.cartesianImpedance, cfg.cartesianForce, cfg.trajectory])
  else if mode = IMPEDANCE_MODE then
    some ([cfg.jointImpedance],
      [cfg.jointPosition, cfg.jointTorque, cfg.jointVelocity, cfg.cartesianPose,
       cfg.cartesianImpedance, cfg.cartesianForce, cfg.trajectory])
  else if mode = TORQUE_MODE then
    some ([cfg.jointTorque],
      [cfg.jointPosition, cfg.jointImpedance, cfg.jointVelocity, cfg.cartesianPose,
       cfg.cartesianImpedance, cfg.cartesianForce, cfg.trajectory])
  else if mode = VELOCITY_MODE then
    some ([cfg.jointVelocity],
      [cfg.jointPosition, cfg.jointImpedance, cfg.jointTorque, cfg.cartesianPose,
       cfg.cartesianImpedance, cfg.cartesianForce, cfg.trajectory])
  else none

/-- Embeds `MotionControllerInterface::switchControllers` (lines 175-246).
`sw` is the external `controller_manager_->switchController` primitive.
On success `current_mode_` and `current_controller_name_ = start_controllers[0]`
are updated (lines 234-235); on an unknown mode or a failed request the
function returns `false` leaving the state untouched; when the requested mode
already equals `current_mode_` the whole block is skipped and `true` is
returned. -/
def switchControllers (cfg : ArbiterConfig) (sw : List String → List String → Bool)
    (s : ArbiterState) (mode : Int) : SwitchOutcome :=
  if s.currentMode ≠ mode then
    match controllerListsFor cfg mode with
    | none => ⟨false, s, none⟩
    | some (startL, stopL) =>
      if sw startL stopL then
        ⟨true,
         { s with currentMode := mode, currentController := startL.headI },
         some ⟨startL, stopL⟩⟩
      else ⟨false, s, some ⟨startL, stopL⟩⟩
  else ⟨true, s, none⟩

/-- Embeds `MotionControllerInterface::switchToDefaultController` (lines 137-165).
The start/stop lists are built by partitioning `all_controllers_` on equality
with the default name (lines 142-147).  On a successful external switch the
code reads `start_controllers[0]` (line 154) and `stop_controllers[0]` …
`stop_controllers[6]` (lines 156-163); an out-of-bounds read (empty start
list, or a stop list shorter than seven) is a fault, modelled as `none`. -/
def defaultStartList (cfg : ArbiterConfig) : List String :=
  (allControllers cfg).filter (fun n => n == cfg.defaultController)

/-- The stop list of `switchToDefaultController` (line 146). -/
def defaultStopList (cfg : ArbiterConfig) : List String :=
  (allControllers cfg).filter (fun n => !(n == cfg.defaultController))

/-- The body of `switchToDefaultController` (lines 148-164); see
`defaultStartList` for the partition of lines 142-147. -/
def switchToDefaultController (cfg : ArbiterConfig)
    (sw : List String → List String → Bool) (s : ArbiterState) :
    Option (Bool × ArbiterState) × Option SwitchRequest :=
  if sw (defaultStartList cfg) (defaultStopList cfg) then
    match (defaultStartList cfg)[0]?, (defaultStopList cfg)[6]? with
    | some c, some _ =>
      (some (true, { s with currentController := c, currentMode := modeMap cfg c }),
       some ⟨defaultStartList cfg, defaultStopList cfg⟩)
    | _, _ => (none, some ⟨defaultStartList cfg, defaultStopList cfg⟩)
  else (some (false, s), some ⟨defaultStartList cfg, defaultStopList cfg⟩)

/-- Embeds `MotionControllerInterface::commandTimeoutCheck` (lines 119-135): the
watchdog tick at time `now`.  `command_timeout` holds only when a last
command stamp exists and `now - stamp > timeout`; the switch to default is
attempted only when in addition the current controller differs from the
default.  The boolean returned by `switchToDefaultController` is discarded
(the call is a bare statement). -/
def commandTimeout (now : ℚ) (s : ArbiterState) : Bool :=
  match s.lastCmdTime with
  | some t => decide (now - t > s.timeoutLength)
  | none => false

/-- The watchdog tick proper (see `commandTimeout` above for the staleness
test, lines 127-128). -/
def commandTimeoutCheck (cfg : ArbiterConfig)
    (sw : List String → List String → Bool) (now : ℚ) (s : ArbiterState) :
    Option ArbiterState × Option SwitchRequest :=
  if commandTimeout now s && (s.currentController != cfg.defaultController) then
    match switchToDefaultController cfg sw s with
    | (some (_, s'), req) => (some s', req)
    | (none, req) => (none, req)
  else (some s, none)

/-- Embeds `MotionControllerInterface::jointCommandCallback` (lines 248-255): the
last-command stamp is set to `now` only when `switchControllers` returns
`true`. -/
def jointCommandCallback (cfg : ArbiterConfig)
    (sw : List String → List String → Bool) (now : ℚ) (mode : Int)
    (s : ArbiterState) : ArbiterState :=
  if (switchControllers cfg sw s mode).ok then
    { (switchControllers cfg sw s mode).state with lastCmdTime := some now }
  else (switchControllers cfg sw s mode).state

/-- A run of watchdog ticks at the given times, collecting every switch
request issued; `none` if some tick faulted. -/
def runWatchdog (cfg : ArbiterConfig) (sw : List String → List String → Bool) :
    List ℚ → ArbiterState → Option (ArbiterState × List SwitchRequest)
  | [], s => some (s, [])
  | t :: ts, s =>
    match commandTimeoutCheck cfg sw t s with
    | (some s', req) =>
      match runWatchdog cfg sw ts s' with
      | some (s'', reqs) => some (s'', req.toList ++ reqs)
      | none => none
    | (none, _) => none

/-! ## Cartesian impedance controller: data model -/

/-- 6×6 Cartesian gain matrix (entries are machine doubles, embedded as ℝ). -/
def Mat6 : Type := Fin 6 → Fin 6 → ℝ

/-- The 6×6 identity, `Eigen::Matrix<double,6,6>::setIdentity()`. -/
def mat6Id : Mat6 := fun i j => if i = j then 1 else 0

/-- Single-entry assignment `m(r,c) = v` on a 6×6 matrix. -/
def mset (m : Mat6) (r c : Fin 6) (v : ℝ) : Mat6 :=
  fun i j => if i = r ∧ j = c then v else m i j

/-- The fields of the `franka_core_msgs::CartImpedanceStiffness` message that
`stiffnessParamCallback` reads (the message definition is not under `src/`;
field names and types follow their use at lines 232-311). -/
structure CartImpedanceStiffness where
  use_flag : Int
  x : ℝ
  y : ℝ
  z : ℝ
  xrot : ℝ
  yrot : ℝ
  zrot : ℝ
  bx : ℝ
  by' : ℝ
  bz : ℝ
  bxrot : ℝ
  byrot : ℝ
  bzrot : ℝ
  xx : ℝ
  xy : ℝ
  xz : ℝ
  yx : ℝ
  yy : ℝ
  yz : ℝ
  zx : ℝ
  zy : ℝ
  zz : ℝ
  xxrot : ℝ
  xyrot : ℝ
  xzrot : ℝ
  yxrot : ℝ
  yyrot : ℝ
  yzrot : ℝ
  zxrot : ℝ
  zyrot : ℝ
  zzrot : ℝ
  bxx : ℝ
  bxy : ℝ
  bxz : ℝ
  byx : ℝ
  byy : ℝ
  byz : ℝ
  bzx : ℝ
  bzy : ℝ
  bzz : ℝ
  bxxrot : ℝ
  bxyrot : ℝ
  bxzrot : ℝ
  byxrot : ℝ
  byyrot : ℝ
  byzrot : ℝ
  bzxrot : ℝ
  bzyrot : ℝ
  bzzrot : ℝ

/-- The target-gain state of `CartesianImpedanceController` touched by
`stiffnessParamCallback`: `cartesian_stiffness_target_`,
`cartesian_damping_target_` and `nullspace_stiffness_target_`. -/
structure CtrlTargets where
  cartesianStiffnessTarget : Mat6
  cartesianDampingTarget : Mat6
  nullspaceStiffnessTarget : ℝ

/-- The target initialization of `CartesianImpedanceController::init`
(lines 97-103): identity matrices, `nullspace_stiffness_target_ = 0`, then
the six diagonal stiffness gains with damping `2·√gain`. -/
noncomputable def ctrlInit (stiffnessGains : Fin 6 → ℝ) : CtrlTargets :=
  { cartesianStiffnessTarget := fun i j =>
      if i = j then stiffnessGains i else mat6Id i j
    cartesianDampingTarget := fun i j =>
      if i = j then 2 * Real.sqrt (stiffnessGains i) else mat6Id i j
    nullspaceStiffnessTarget := 0 }

/-- The diagonal-mode stiffness matrix of `stiffnessParamCallback`
(lines 227, 235-240): identity overwritten on the diagonal by the six
axis gains. -/
def diagStiffnessMatrix (msg : CartImpedanceStiffness) : Mat6 :=
  mset (mset (mset (mset (mset (mset mat6Id
    0 0 msg.x) 1 1 msg.y) 2 2 msg.z) 3 3 msg.xrot) 4 4 msg.yrot) 5 5 msg.zrot

/-- The diagonal-mode damping matrix when no explicit damping is supplied
(`msg.bx == -1`, lines 242-257): `0.5·√gain` per axis over identity. -/
noncomputable def diagDampingHalfSqrt (msg : CartImpedanceStiffness) : Mat6 :=
  mset (mset (mset (mset (mset (mset mat6Id
    0 0 (0.5 * Real.sqrt msg.x))
    1 1 (0.5 * Real.sqrt msg.y))
    2 2 (0.5 * Real.sqrt msg.z))
    3 3 (0.5 * Real.sqrt msg.xrot))
    4 4 (0.5 * Real.sqrt msg.yrot))
    5 5 (0.5 * Real.sqrt msg.zrot)

/-- The diagonal-mode damping matrix with explicit per-axis damping
(lines 258-266). -/
def diagDampingExplicit (msg : CartImpedanceStiffness) : Mat6 :=
  mset (mset (mset (mset (mset (mset mat6Id
    0 0 msg.bx) 1 1 msg.by') 2 2 msg.bz)
    3 3 msg.bxrot) 4 4 msg.byrot) 5 5 msg.bzrot

/-- The full-coupled-mode stiffness matrix (lines 272-289): two 3×3
blocks written over identity. -/
def fullStiffnessMatrix (msg : CartImpedanceStiffness) : Mat6 :=
  mset (mset (mset (mset (mset (mset (mset (mset (mset
  (mset (mset (mset (mset (mset (mset (mset (mset (mset mat6Id
  0 0 msg.xx) 0 1 msg.xy) 0 2 msg.xz)
  1 0 msg.yx) 1 1 msg.yy) 1 2 msg.yz)
  2 0 msg.zx) 2 1 msg.zy) 2 2 msg.zz)
  3 3 msg.xxrot) 3 4 msg.xyrot) 3 5 msg.xzrot)
  4 3 msg.yxrot) 4 4 msg.yyrot) 4 5 msg.yzrot)
  5 3 msg.zxrot) 5 4 msg.zyrot) 5 5 msg.zzrot

/-- The full-coupled-mode damping matrix (lines 291-308). -/
def fullDampingMatrix (msg : CartImpedanceStiffness) : Mat6 :=
  mset (mset (mset (mset (mset (mset (mset (mset (mset
  (mset (mset (mset (mset (mset (mset (mset (mset (mset mat6Id
  0 0 msg.bxx) 0 1 msg.bxy) 0 2 msg.bxz)
  1 0 msg.byx) 1 1 msg.byy) 1 2 msg.byz)
  2 0 msg.bzx) 2 1 msg.bzy) 2 2 msg.bzz)
  3 3 msg.bxxrot) 3 4 msg.bxyrot) 3 5 msg.bxzrot)
  4 3 msg.byxrot) 4 4 msg.byyrot) 4 5 msg.byzrot)
  5 3 msg.bzxrot) 5 4 msg.bzyrot) 5 5 msg.bzzrot

/-- Embeds `CartesianImpedanceController::stiffnessParamCallback` (lines 224-317):
both target matrices are reset to identity and overwritten entry by entry
according to `use_flag`; in diagonal mode the damping diagonal is
`0.5·√gain` when `msg.bx == -1` and the explicit per-axis damping
otherwise; `nullspace_stiffness_target_` is never assigned (the
assignment at line 229 is commented out). -/
noncomputable def stiffnessParamCallback (msg : CartImpedanceStiffness)
    (s : CtrlTargets) : CtrlTargets :=
  if msg.use_flag = 0 then
    { s with
      cartesianStiffnessTarget := diagStiffnessMatrix msg
      cartesianDampingTarget :=
        if msg.bx = -1 then diagDampingHalfSqrt msg else diagDampingExplicit msg }
  else
    { s with
      cartesianStiffnessTarget := fullStiffnessMatrix msg
      cartesianDampingTarget := fullDampingMatrix msg }

/-- The diagonal stiffness gain of axis `i` carried by a diagonal-mode
message (fields `x, y, z, xrot, yrot, zrot` in axis order, lines 235-240). -/
def diagGain (msg : CartImpedanceStiffness) : Fin 6 → ℝ := fun i =>
  if i = 0 then msg.x
  else if i = 1 then msg.y
  else if i = 2 then msg.z
  else if i = 3 then msg.xrot
  else if i = 4 then msg.yrot
  else msg.zrot

/-- One step of the exponential parameter filter of
`CartesianImpedanceController::update` (lines 202-204):
`current := α·target + (1-α)·current`, applied entrywise. -/
def filterStep (α target current : ℝ) : ℝ :=
  α * target + (1 - α) * current

/-- Embeds `CartesianImpedanceController::saturateTorqueRate` (lines 213-222):
each joint's commanded torque is the previous commanded torque plus the
difference clamped to `[-delta_tau_max_, delta_tau_max_]`. -/
noncomputable def saturateTorqueRate (deltaTauMax : ℝ)
    (tauDCalculated tauJD : Fin 7 → ℝ) : Fin 7 → ℝ :=
  fun i => tauJD i + max (min (tauDCalculated i - tauJD i) deltaTauMax) (-deltaTauMax)

/-! ## Quaternion orientation error (lines 164-173 of `update`) -/

/-- A quaternion with real coefficients, scalar part `w`. -/
structure Quat where
  w : ℝ
  x : ℝ
  y : ℝ
  z : ℝ

/-- Coefficient-wise dot product, `q.coeffs().dot(p.coeffs())`. -/
def qdot (p q : Quat) : ℝ := p.w * q.w + p.x * q.x + p.y * q.y + p.z * q.z

/-- Coefficient-wise negation, `-q.coeffs()`. -/
def qneg (q : Quat) : Quat := ⟨-q.w, -q.x, -q.y, -q.z⟩

/-- Hamilton product, `Eigen::Quaterniond` multiplication. -/
def qmul (p q : Quat) : Quat :=
  ⟨p.w * q.w - p.x * q.x - p.y * q.y - p.z * q.z,
   p.w * q.x + p.x * q.w + p.y * q.z - p.z * q.y,
   p.w * q.y - p.x * q.z + p.y * q.w + p.z * q.x,
   p.w * q.z + p.x * q.y - p.y * q.x + p.z * q.w⟩

/-- Squared norm of the coefficients. -/
def qnormSq (q : Quat) : ℝ := q.w ^ 2 + q.x ^ 2 + q.y ^ 2 + q.z ^ 2

/-- Embeds `Eigen::Quaterniond::inverse()`: conjugate divided by the squared norm
when that is positive, the zero quaternion otherwise. -/
noncomputable def qinv (q : Quat) : Quat :=
  if 0 < qnormSq q then
    ⟨q.w / qnormSq q, -q.x / qnormSq q, -q.y / qnormSq q, -q.z / qnormSq q⟩
  else ⟨0, 0, 0, 0⟩

/-- The sign correction of `update` (lines 165-167): the measured
orientation is negated when its coefficient dot product with the target
orientation is negative. -/
noncomputable def signCorrect (orientationD orientation : Quat) : Quat :=
  if qdot orientationD orientation < 0 then qneg orientation else orientation

/-- The "difference" quaternion of `update` (line 169):
`error_quaternion = orientation * orientation_d_.inverse()`, computed from
the sign-corrected measured orientation. -/
noncomputable def errorQuat (orientationD orientation : Quat) : Quat :=
  qmul (signCorrect orientationD orientation) (qinv orientationD)

/-- Two-argument arctangent, `std::atan2` (result in `(-π, π]`). -/
noncomputable def atan2 (y x : ℝ) : ℝ :=
  if 0 < x then Real.arctan (y / x)
  else if x < 0 then
    (if 0 ≤ y then Real.arctan (y / x) + Real.pi
     else Real.arctan (y / x) - Real.pi)
  else if 0 < y then Real.pi / 2
  else if y < 0 then -(Real.pi / 2)
  else 0

/-- The rotation angle that `Eigen::AngleAxisd` (Eigen 3.3,
`AngleAxis::operator=(QuaternionBase)`) extracts from a quaternion:
`2·atan2(‖vec‖, |w|)` when the vector part is nonzero, `0` otherwise.
This is the magnitude of the rotation computed at line 171 of `update`. -/
noncomputable def quatVecNorm (q : Quat) : ℝ :=
  Real.sqrt (q.x ^ 2 + q.y ^ 2 + q.z ^ 2)

/-- See `quatVecNorm`; the angle itself. -/
noncomputable def quatAngle (q : Quat) : ℝ :=
  if quatVecNorm q = 0 then 0 else 2 * atan2 (quatVecNorm q) |q.w|

/-! ## Derived projections and concrete instances -/

/-- The controller name that a recognized mode starts (first push of the
corresponding `switch` case of `switchControllers`); `""` for an
unrecognized mode. -/
def modeController (cfg : ArbiterConfig) (mode : Int) : String :=
  if mode = POSITION_MODE then cfg.jointPosition
  else if mode = IMPEDANCE_MODE then cfg.jointImpedance
  else if mode = TORQUE_MODE then cfg.jointTorque
  else if mode = VELOCITY_MODE then cfg.jointVelocity
  else ""

/-- The stop list a recognized mode pushes (the seven other controllers
in the push order of the corresponding `switch` case). -/
def stopControllersFor (cfg : ArbiterConfig) (mode : Int) : List String :=
  match controllerListsFor cfg mode with
  | some p => p.2
  | none => []

/-- The configuration built from the fallback names of `init`
(lines 38-64): every parameter absent from the parameter server. -/
def cfg0 : ArbiterConfig :=
  { jointPosition := "joint_position_controller"
    jointVelocity := "joint_velocity_controller"
    jointTorque := "joint_torque_controller"
    jointImpedance := "joint_impedance_controller"
    cartesianPose := "cartesian_pose_controller"
    cartesianImpedance := "cartesian_impedance_controller"
    cartesianForce := "cartesian_force_controller"
    trajectory := "position_joint_trajectory_controller"
    defaultController := "position_joint_trajectory_controller" }

/-- A misconfiguration: the default controller name appears nowhere among
the eight controller names. -/
def cfgBad : ArbiterConfig := { cfg0 with defaultController := "missing_controller" }

/-- An external switch primitive that accepts every request. -/
def swAccept : List String → List String → Bool := fun _ _ => true

/-- An external switch primitive that rejects every request. -/
def swReject : List String → List String → Bool := fun _ _ => false

/-- An arbiter state with the torque controller active and a command
accepted at time `0` (reached from `arbiterInit` by one successful
`TORQUE_MODE` command, with a configured timeout of `0`). -/
def sTorque : ArbiterState :=
  { currentMode := TORQUE_MODE
    currentController := "joint_torque_controller"
    lastCmdTime := some 0
    timeoutLength := 0 }

/-- The same kind of state under the misconfigured `cfgBad`. -/
def sTorqueBad : ArbiterState :=
  { currentMode := TORQUE_MODE
    currentController := "joint_torque_controller"
    lastCmdTime := some 0
    timeoutLength := 0 }

/-- A diagonal-mode stiffness message: all six gains `1`, the damping
sentinel `bx = -1`, every other field `0`. -/
def msgDiag1 : CartImpedanceStiffness :=
  ⟨0, 1, 1, 1, 1, 1, 1, -1, 0, 0, 0, 0, 0,
   0, 0, 0, 0, 0, 0, 0, 0, 0, 0, 0, 0, 0, 0, 0, 0, 0, 0,
   0, 0, 0, 0, 0, 0, 0, 0, 0, 0, 0, 0, 0, 0, 0, 0, 0, 0⟩

/-- A neutral target-gain state (identity matrices, zero nullspace
stiffness), as left by `init` with unit gains. -/
def targets0 : CtrlTargets := ⟨mat6Id, mat6Id, 0⟩

/-- Target orientation `(w,x,y,z) = (1,0,0,0)` (the identity rotation). -/
def qTarget : Quat := ⟨1, 0, 0, 0⟩

/-- Measured orientation `(-1,0,0,0)`: the same rotation as `qTarget`
with opposite sign, so the coefficient dot product is negative. -/
def qMeas : Quat := ⟨-1, 0, 0, 0⟩

/-! ## Helper lemmas -/

theorem perm_swap13 {α : Type} (a b c : α) (l : List α) :
    List.Perm (a :: b :: c :: l) (c :: b :: a :: l) :=
  ((List.Perm.swap b a (c :: l)).trans
    (List.Perm.cons b (List.Perm.swap c a l))).trans
    (List.Perm.swap c b (a :: l))

theorem clf_position (cfg : ArbiterConfig) :
    controllerListsFor cfg POSITION_MODE =
      some ([cfg.jointPosition],
        [cfg.jointImpedance, cfg.jointTorque, cfg.jointVelocity, cfg.cartesianPose,
         cfg.cartesianImpedance, cfg.cartesianForce, cfg.trajectory]) := rfl

theorem clf_velocity (cfg : ArbiterConfig) :
    controllerListsFor cfg VELOCITY_MODE =
      some ([cfg.jointVelocity],
        [cfg.jointPosition, cfg.jointImpedance, cfg.jointTorque, cfg.cartesianPose,
         cfg.cartesianImpedance, cfg.cartesianForce, cfg.trajectory]) := rfl

theorem clf_torque (cfg : ArbiterConfig) :
    controllerListsFor cfg TORQUE_MODE =
      some ([cfg.jointTorque],
        [cfg.jointPosition, cfg.jointImpedance, cfg.jointVelocity, cfg.cartesianPose,
         cfg.cartesianImpedance, cfg.cartesianForce, cfg.trajectory]) := rfl

theorem clf_impedance (cfg : ArbiterConfig) :
    controllerListsFor cfg IMPEDANCE_MODE =
      some ([cfg.jointImpedance],
        [cfg.jointPosition, cfg.jointTorque, cfg.jointVelocity, cfg.cartesianPose,
         cfg.cartesianImpedance, cfg.cartesianForce, cfg.trajectory]) := rfl

/-- Reduction of `switchControllers` for a recognized mode differing from
the current one. -/
theorem switchControllers_reduce (cfg : ArbiterConfig)
    (sw : List String → List String → Bool) (s : ArbiterState) (mode : Int)
    (startL stopL : List String) (hne : s.currentMode ≠ mode)
    (hcl : controllerListsFor cfg mode = some (startL, stopL)) :
    switchControllers cfg sw s mode =
      if sw startL stopL then
        ⟨true, { s with currentMode := mode, currentController := startL.headI },
         some ⟨startL, stopL⟩⟩
      else ⟨false, s, some ⟨startL, stopL⟩⟩ := by
  unfold switchControllers
  rw [if_pos hne, hcl]

/-! ## Claims -/

/-- C5: for every mode request equal to the current mode,
`switchControllers` returns `true`, issues no request to the external
controller-switching primitive, and leaves the arbiter state unchanged. -/
theorem requestMode_same_mode_noop (cfg : ArbiterConfig)
    (sw : List String → List String → Bool) (s : ArbiterState) (mode : Int)
    (h : s.currentMode = mode) :
    switchControllers cfg sw s mode = ⟨true, s, none⟩ := by
  simp [switchControllers, h]

theorem requestMode_same_mode_noop_witness :
    (arbiterInit cfg0 (1/5)).currentMode = -1 ∧
    switchControllers cfg0 swReject (arbiterInit cfg0 (1/5)) (-1) =
      ⟨true, arbiterInit cfg0 (1/5), none⟩ :=
  ⟨rfl, requestMode_same_mode_noop cfg0 swReject (arbiterInit cfg0 (1/5)) (-1) rfl⟩

/-- C4 counterexample: at the freshly initialized arbiter
(`current_mode_ = -1`) a request for the unrecognized mode `-1` returns
`true`, not `false`, even under a switch primitive that would reject
every request. -/
theorem unrecognized_mode_returns_true_cex :
    (switchControllers cfg0 swReject (arbiterInit cfg0 0) (-1)).ok = true := by
  decide

/-- C4 (amended): for every mode request that differs from the current
mode, if the mode is unrecognized or the external switch request fails,
`switchControllers` returns `false` and the arbiter state is unchanged.
(A request whose mode equals the current mode returns `true` without any
check, even when that common value is itself unrecognized.) -/
theorem switchControllers_failure_unchanged (cfg : ArbiterConfig)
    (sw : List String → List String → Bool) (s : ArbiterState) (mode : Int)
    (hne : s.currentMode ≠ mode)
    (h : controllerListsFor cfg mode = none ∨
         ∃ p, controllerListsFor cfg mode = some p ∧ sw p.1 p.2 = false) :
    (switchControllers cfg sw s mode).ok = false ∧
    (switchControllers cfg sw s mode).state = s := by
  rcases h with h | ⟨⟨a, b⟩, hp, hsw⟩
  · simp [switchControllers, hne, h]
  · simp [switchControllers, hne, hp, hsw]

theorem switchControllers_failure_unchanged_witness :
    (arbiterInit cfg0 (1/2)).currentMode ≠ 99 ∧
    ((switchControllers cfg0 swReject (arbiterInit cfg0 (1/2)) 99).ok = false ∧
     (switchControllers cfg0 swReject (arbiterInit cfg0 (1/2)) 99).state =
       arbiterInit cfg0 (1/2)) :=
  ⟨by decide,
   switchControllers_failure_unchanged cfg0 swReject (arbiterInit cfg0 (1/2)) 99
     (by decide) (Or.inl rfl)⟩

/-- C3: for every recognized mode (POSITION, VELOCITY, TORQUE, IMPEDANCE)
that differs from the current mode, if the external switch request
succeeds then afterwards the current mode equals the requested mode, the
start set is exactly the one controller mapped to that mode, and the stop
set contains exactly the seven other configured controllers (start and
stop together are a permutation of the eight configured controllers). -/
theorem switchControllers_success_state (cfg : ArbiterConfig)
    (sw : List String → List String → Bool) (s : ArbiterState) (mode : Int)
    (hmode : mode = POSITION_MODE ∨ mode = VELOCITY_MODE ∨
             mode = TORQUE_MODE ∨ mode = IMPEDANCE_MODE)
    (hne : s.currentMode ≠ mode)
    (hok : (switchControllers cfg sw s mode).ok = true) :
    (switchControllers cfg sw s mode).state.currentMode = mode ∧
    (switchControllers cfg sw s mode).state.currentController =
      modeController cfg mode ∧
    (switchControllers cfg sw s mode).req =
      some ⟨[modeController cfg mode], stopControllersFor cfg mode⟩ ∧
    ([modeController cfg mode] ++ stopControllersFor cfg mode).Perm
      (allControllers cfg) := by
  rcases hmode with h | h | h | h <;> subst h
  · rw [switchControllers_reduce cfg sw s POSITION_MODE _ _ hne (clf_position cfg)]
      at hok ⊢
    by_cases hsw : sw [cfg.jointPosition]
        [cfg.jointImpedance, cfg.jointTorque, cfg.jointVelocity, cfg.cartesianPose,
         cfg.cartesianImpedance, cfg.cartesianForce, cfg.trajectory]
    · rw [if_pos hsw]
      refine ⟨rfl, rfl, rfl, ?_⟩
      exact List.Perm.cons cfg.jointPosition
        (perm_swap13 cfg.jointImpedance cfg.jointTorque cfg.jointVelocity
          [cfg.cartesianPose, cfg.cartesianImpedance, cfg.cartesianForce,
           cfg.trajectory])
    · rw [if_neg hsw] at hok
      exact absurd hok (by simp)
  · rw [switchControllers_reduce cfg sw s VELOCITY_MODE _ _ hne (clf_velocity cfg)]
      at hok ⊢
    by_cases hsw : sw [cfg.jointVelocity]
        [cfg.jointPosition, cfg.jointImpedance, cfg.jointTorque, cfg.cartesianPose,
         cfg.cartesianImpedance, cfg.cartesianForce, cfg.trajectory]
    · rw [if_pos hsw]
      refine ⟨rfl, rfl, rfl, ?_⟩
      exact (List.Perm.swap cfg.jointPosition cfg.jointVelocity
          [cfg.jointImpedance, cfg.jointTorque, cfg.cartesianPose,
           cfg.cartesianImpedance, cfg.cartesianForce, cfg.trajectory]).trans
        (List.Perm.cons cfg.jointPosition (List.Perm.cons cfg.jointVelocity
          (List.Perm.swap cfg.jointTorque cfg.jointImpedance
            [cfg.cartesianPose, cfg.cartesianImpedance, cfg.cartesianForce,
             cfg.trajectory])))
    · rw [if_neg hsw] at hok
      exact absurd hok (by simp)
  · rw [switchControllers_reduce cfg sw s TORQUE_MODE _ _ hne (clf_torque cfg)]
      at hok ⊢
    by_cases hsw : sw [cfg.jointTorque]
        [cfg.jointPosition, cfg.jointImpedance, cfg.jointVelocity, cfg.cartesianPose,
         cfg.cartesianImpedance, cfg.cartesianForce, cfg.trajectory]
    · rw [if_pos hsw]
      refine ⟨rfl, rfl, rfl, ?_⟩
      exact ((List.Perm.swap cfg.jointPosition cfg.jointTorque
          [cfg.jointImpedance, cfg.jointVelocity, cfg.cartesianPose,
           cfg.cartesianImpedance, cfg.cartesianForce, cfg.trajectory]).trans
        (List.Perm.cons cfg.jointPosition
          (perm_swap13 cfg.jointTorque cfg.jointImpedance cfg.jointVelocity
            [cfg.cartesianPose, cfg.cartesianImpedance, cfg.cartesianForce,
             cfg.trajectory]))).trans
        (List.Perm.cons cfg.jointPosition (List.Perm.cons cfg.jointVelocity
          (List.Perm.swap cfg.jointTorque cfg.jointImpedance
            [cfg.cartesianPose, cfg.cartesianImpedance, cfg.cartesianForce,
             cfg.trajectory])))
    · rw [if_neg hsw] at hok
      exact absurd hok (by simp)
  · rw [switchControllers_reduce cfg sw s IMPEDANCE_MODE _ _ hne (clf_impedance cfg)]
      at hok ⊢
    by_cases hsw : sw [cfg.jointImpedance]
        [cfg.jointPosition, cfg.jointTorque, cfg.jointVelocity, cfg.cartesianPose,
         cfg.cartesianImpedance, cfg.cartesianForce, cfg.trajectory]
    · rw [if_pos hsw]
      refine ⟨rfl, rfl, rfl, ?_⟩
      exact (List.Perm.swap cfg.jointPosition cfg.jointImpedance
          [cfg.jointTorque, cfg.jointVelocity, cfg.cartesianPose,
           cfg.cartesianImpedance, cfg.cartesianForce, cfg.trajectory]).trans
        (List.Perm.cons cfg.jointPosition
          (perm_swap13 cfg.jointImpedance cfg.jointTorque cfg.jointVelocity
            [cfg.cartesianPose, cfg.cartesianImpedance, cfg.cartesianForce,
             cfg.trajectory]))
    · rw [if_neg hsw] at hok
      exact absurd hok (by simp)

theorem switchControllers_success_state_witness :
    (switchControllers cfg0 swAccept (arbiterInit cfg0 0) POSITION_MODE).state.currentMode
        = POSITION_MODE ∧
    (switchControllers cfg0 swAccept (arbiterInit cfg0 0) POSITION_MODE).state.currentController
        = modeController cfg0 POSITION_MODE ∧
    (switchControllers cfg0 swAccept (arbiterInit cfg0 0) POSITION_MODE).req =
      some ⟨[modeController cfg0 POSITION_MODE], stopControllersFor cfg0 POSITION_MODE⟩ ∧
    ([modeController cfg0 POSITION_MODE] ++ stopControllersFor cfg0 POSITION_MODE).Perm
      (allControllers cfg0) :=
  switchControllers_success_state cfg0 swAccept (arbiterInit cfg0 0) POSITION_MODE
    (Or.inl rfl) (by decide) (by decide)

/-- Reduction of a watchdog tick whose staleness condition fires: the tick
delegates to `switchToDefaultController`. -/
theorem commandTimeoutCheck_fires (cfg : ArbiterConfig)
    (sw : List String → List String → Bool) (now : ℚ) (s : ArbiterState)
    (t : ℚ) (hlast : s.lastCmdTime = some t)
    (hgt : now - t > s.timeoutLength)
    (hne : s.currentController ≠ cfg.defaultController) :
    commandTimeoutCheck cfg sw now s =
      match switchToDefaultController cfg sw s with
      | (some (_, s'), req) => (some s', req)
      | (none, req) => (none, req) := by
  have hct : commandTimeout now s = true := by
    unfold commandTimeout
    rw [hlast]
    show decide (now - t > s.timeoutLength) = true
    exact decide_eq_true hgt
  have hbne : (s.currentController != cfg.defaultController) = true := by
    rw [bne_iff_ne]
    exact hne
  unfold commandTimeoutCheck
  rw [hct, hbne, Bool.and_self, if_pos rfl]

/-- Reduction of a watchdog tick whose staleness condition does not fire
because the active controller is the default. -/
theorem commandTimeoutCheck_default_noop (cfg : ArbiterConfig)
    (sw : List String → List String → Bool) (now : ℚ) (s : ArbiterState)
    (hcur : s.currentController = cfg.defaultController) :
    commandTimeoutCheck cfg sw now s = (some s, none) := by
  unfold commandTimeoutCheck
  have hbne : (s.currentController != cfg.defaultController) = false := by
    simp [hcur]
  rw [hbne, Bool.and_false, if_neg]
  simp

/-- C2 counterexample: with the default controller name absent from the
configured set and a non-default controller active, a watchdog tick whose
external switch request succeeds faults (out-of-bounds read of the empty
start list), contradicting "executes without faulting". -/
theorem default_absent_watchdog_faults_cex :
    (commandTimeoutCheck cfgBad swAccept 1 sTorqueBad).1 = none := by
  rw [commandTimeoutCheck_fires cfgBad swAccept 1 sTorqueBad 0 rfl
    (by norm_num [sTorqueBad]) (by decide)]
  decide

theorem filter_beq_nil_of_not_mem (d : String) (l : List String)
    (hd : d ∉ l) : l.filter (fun n => n == d) = [] := by
  rw [List.filter_eq_nil_iff]
  intro a ha
  simp only [beq_iff_eq]
  rintro rfl
  exact hd ha

theorem filter_bne_self_of_not_mem (d : String) (l : List String)
    (hd : d ∉ l) : l.filter (fun n => !(n == d)) = l := by
  rw [List.filter_eq_self]
  intro a ha
  simp only [Bool.not_eq_true', beq_eq_false_iff_ne, ne_eq]
  rintro rfl
  exact hd ha

/-- C2 (amended): when the configured default controller name does not
appear among the eight configured controller names, initialization merely
fails the `default_defined` check (an error log) and the arbiter still
runs, but a subsequent watchdog-triggered switch-to-default faults with an
out-of-bounds read of the empty start list exactly when the external
switch request (empty start set, all eight controllers stopped) succeeds;
only a failed request returns without faulting, leaving the state
unchanged. -/
theorem default_absent_switch_faults (cfg : ArbiterConfig)
    (hd : cfg.defaultController ∉ allControllers cfg) :
    defaultDefined cfg = false ∧
    ∀ (sw : List String → List String → Bool) (s : ArbiterState),
      ((switchToDefaultController cfg sw s).1 = none ↔
        sw [] (allControllers cfg) = true) ∧
      (sw [] (allControllers cfg) = false →
        switchToDefaultController cfg sw s =
          (some (false, s), some ⟨[], allControllers cfg⟩)) := by
  constructor
  · rw [Bool.eq_false_iff]
    intro h
    rw [defaultDefined, List.any_eq_true] at h
    obtain ⟨x, hx, hbeq⟩ := h
    rw [beq_iff_eq] at hbeq
    exact hd (hbeq ▸ hx)
  · intro sw s
    unfold switchToDefaultController defaultStartList defaultStopList
    rw [filter_beq_nil_of_not_mem _ _ hd, filter_bne_self_of_not_mem _ _ hd]
    cases hsw : sw [] (allControllers cfg) <;> simp [hsw]

theorem default_absent_switch_faults_witness :
    defaultDefined cfgBad = false ∧
    (((switchToDefaultController cfgBad swAccept sTorque).1 = none ↔
        swAccept [] (allControllers cfgBad) = true) ∧
     (swAccept [] (allControllers cfgBad) = false →
        switchToDefaultController cfgBad swAccept sTorque =
          (some (false, sTorque), some ⟨[], allControllers cfgBad⟩))) :=
  ⟨(default_absent_switch_faults cfgBad (by decide)).1,
   (default_absent_switch_faults cfgBad (by decide)).2 swAccept sTorque⟩

theorem filter_beq_singleton_of_nodup (d : String) (l : List String)
    (hnd : l.Nodup) (hm : d ∈ l) : l.filter (fun n => n == d) = [d] := by
  induction l with
  | nil => cases hm
  | cons a t ih =>
    rw [List.nodup_cons] at hnd
    rcases List.mem_cons.mp hm with h | hm'
    · cases h
      have ht : t.filter (fun n => n == d) = [] :=
        filter_beq_nil_of_not_mem d t hnd.1
      simp [List.filter_cons, ht]
    · have hat : (a == d) = false := by
        rw [beq_eq_false_iff_ne]
        rintro rfl
        exact hnd.1 hm'
      simp [List.filter_cons, hat, ih hnd.2 hm']

theorem length_filter_split {α : Type} (p : α → Bool) (l : List α) :
    (l.filter p).length + (l.filter (fun a => !(p a))).length = l.length := by
  induction l with
  | nil => rfl
  | cons a t ih =>
    cases h : p a <;> simp [List.filter_cons, h] <;> omega

/-- With a well-formed configuration (default present, no duplicate
names), `switchToDefaultController` issues the request
`start = [default]`, `stop =` the seven others, and on external success
activates the default controller. -/
theorem switchToDefault_success (cfg : ArbiterConfig)
    (sw : List String → List String → Bool) (s : ArbiterState)
    (hnd : (allControllers cfg).Nodup)
    (hmem : cfg.defaultController ∈ allControllers cfg)
    (hsw : sw (defaultStartList cfg) (defaultStopList cfg) = true) :
    switchToDefaultController cfg sw s =
      (some (true,
        { s with currentController := cfg.defaultController,
                 currentMode := modeMap cfg cfg.defaultController }),
       some ⟨defaultStartList cfg, defaultStopList cfg⟩) := by
  have hstart : defaultStartList cfg = [cfg.defaultController] := by
    unfold defaultStartList
    exact filter_beq_singleton_of_nodup cfg.defaultController (allControllers cfg)
      hnd hmem
  have hlen : (defaultStopList cfg).length = 7 := by
    have hsplit := length_filter_split
      (fun n => n == cfg.defaultController) (allControllers cfg)
    unfold defaultStartList at hstart
    rw [hstart] at hsplit
    have h8 : (allControllers cfg).length = 8 := rfl
    rw [h8] at hsplit
    unfold defaultStopList
    simp only [List.length_cons, List.length_nil] at hsplit
    omega
  obtain ⟨v, hv⟩ : ∃ v, (defaultStopList cfg)[6]? = some v :=
    ⟨_, List.getElem?_eq_getElem (by rw [hlen]; omega)⟩
  unfold switchToDefaultController
  rw [hsw, if_pos rfl, hstart, hv]
  rfl

/-- C6: if a last accepted command exists, the elapsed time since it
exceeds the configured timeout, and the current controller differs from
the default, then the watchdog tick issues exactly the switch request
`start = [default]`, `stop =` the seven other controllers, and activates
the default (the external request having succeeded); afterwards, any run
of further ticks with no new command issues no switch request at all and
leaves the state fixed — the switch to default happens exactly once. -/
theorem watchdog_timeout_switch_once (cfg : ArbiterConfig)
    (sw : List String → List String → Bool) (now t : ℚ) (s : ArbiterState)
    (hnd : (allControllers cfg).Nodup)
    (hmem : cfg.defaultController ∈ allControllers cfg)
    (hlast : s.lastCmdTime = some t)
    (helapsed : now - t > s.timeoutLength)
    (hcur : s.currentController ≠ cfg.defaultController)
    (hsw : sw (defaultStartList cfg) (defaultStopList cfg) = true) :
    commandTimeoutCheck cfg sw now s =
      (some { s with currentController := cfg.defaultController,
                     currentMode := modeMap cfg cfg.defaultController },
       some ⟨defaultStartList cfg, defaultStopList cfg⟩) ∧
    ∀ times : List ℚ,
      runWatchdog cfg sw times
        { s with currentController := cfg.defaultController,
                 currentMode := modeMap cfg cfg.defaultController } =
      some ({ s with currentController := cfg.defaultController,
                     currentMode := modeMap cfg cfg.defaultController }, []) := by
  constructor
  · rw [commandTimeoutCheck_fires cfg sw now s t hlast helapsed hcur,
      switchToDefault_success cfg sw s hnd hmem hsw]
  · intro times
    induction times with
    | nil => rfl
    | cons t' ts ih =>
      unfold runWatchdog
      rw [commandTimeoutCheck_default_noop cfg sw t' _ rfl]
      simp [ih]

theorem watchdog_timeout_switch_once_witness :
    (commandTimeoutCheck cfg0 swAccept 1 sTorque =
      (some { sTorque with
                currentController := cfg0.defaultController,
                currentMode := modeMap cfg0 cfg0.defaultController },
       some ⟨defaultStartList cfg0, defaultStopList cfg0⟩)) ∧
    runWatchdog cfg0 swAccept [2, 3]
        { sTorque with
            currentController := cfg0.defaultController,
            currentMode := modeMap cfg0 cfg0.defaultController } =
      some ({ sTorque with
                currentController := cfg0.defaultController,
                currentMode := modeMap cfg0 cfg0.defaultController }, []) :=
  ⟨(watchdog_timeout_switch_once cfg0 swAccept 1 0 sTorque (by decide) (by decide)
      rfl (by norm_num [sTorque]) (by decide) rfl).1,
   (watchdog_timeout_switch_once cfg0 swAccept 1 0 sTorque (by decide) (by decide)
      rfl (by norm_num [sTorque]) (by decide) rfl).2 [2, 3]⟩

/-- C9: before any mode-change command has been successfully applied the
last-command stamp is unset — it is unset at initialization, a failed
`switchControllers` leaves it untouched — and while it is unset the
watchdog never performs a controller switch: every run of ticks issues no
switch request and leaves the state unchanged, regardless of the tick
times and of the current controller. -/
theorem watchdog_inactive_before_first_command (cfg : ArbiterConfig)
    (sw : List String → List String → Bool) (q : ℚ) :
    (arbiterInit cfg q).lastCmdTime = none ∧
    (∀ (now : ℚ) (mode : Int) (s : ArbiterState),
      (switchControllers cfg sw s mode).ok = false →
      (jointCommandCallback cfg sw now mode s).lastCmdTime = s.lastCmdTime) ∧
    (∀ s : ArbiterState, s.lastCmdTime = none →
      ∀ times : List ℚ, runWatchdog cfg sw times s = some (s, [])) := by
  refine ⟨rfl, ?_, ?_⟩
  · intro now mode s hfail
    have hstate : (switchControllers cfg sw s mode).state = s := by
      unfold switchControllers at hfail ⊢
      by_cases hne : s.currentMode ≠ mode
      · rw [if_pos hne] at hfail ⊢
        cases hcl : controllerListsFor cfg mode with
        | none => rfl
        | some p =>
          obtain ⟨a, b⟩ := p
          rw [hcl] at hfail
          by_cases hsw : sw a b
          · simp [hsw] at hfail
          · simp [hsw]
      · rw [if_neg hne] at hfail
        exact absurd hfail (by simp)
    unfold jointCommandCallback
    rw [hfail, hstate]
    simp
  · intro s hnone times
    induction times with
    | nil => rfl
    | cons t' ts ih =>
      have htick : commandTimeoutCheck cfg sw t' s = (some s, none) := by
        unfold commandTimeoutCheck
        have hct : commandTimeout t' s = false := by
          unfold commandTimeout
          rw [hnone]
        rw [hct, Bool.false_and, if_neg]
        simp
      unfold runWatchdog
      rw [htick]
      simp [ih]

theorem watchdog_inactive_before_first_command_witness :
    (arbiterInit cfg0 (1/3)).lastCmdTime = none ∧
    (jointCommandCallback cfg0 swAccept 2 7 (arbiterInit cfg0 (1/3))).lastCmdTime =
      (arbiterInit cfg0 (1/3)).lastCmdTime ∧
    runWatchdog cfg0 swAccept [5, 9] (arbiterInit cfg0 (1/3)) =
      some (arbiterInit cfg0 (1/3), []) :=
  ⟨(watchdog_inactive_before_first_command cfg0 swAccept (1/3)).1,
   (watchdog_inactive_before_first_command cfg0 swAccept (1/3)).2.1 2 7
     (arbiterInit cfg0 (1/3)) (by decide),
   (watchdog_inactive_before_first_command cfg0 swAccept (1/3)).2.2
     (arbiterInit cfg0 (1/3)) rfl [5, 9]⟩

/-- C7: every component of `saturateTorqueRate`'s output differs from the
previous commanded torque by at most `delta_tau_max` in absolute value,
and when the unclamped per-joint difference is already within that bound
the output equals the computed torque. -/
theorem saturateTorqueRate_bounds (d : ℝ) (τc τp : Fin 7 → ℝ)
    (hd : 0 ≤ d) :
    ∀ i : Fin 7, |saturateTorqueRate d τc τp i - τp i| ≤ d ∧
      (|τc i - τp i| ≤ d → saturateTorqueRate d τc τp i = τc i) := by
  intro i
  unfold saturateTorqueRate
  constructor
  · rw [add_sub_cancel_left, abs_le]
    exact ⟨le_max_right _ _, max_le (min_le_right _ _) (by linarith)⟩
  · intro h
    rw [abs_le] at h
    rw [min_eq_left h.2, max_eq_left h.1]
    ring

theorem saturateTorqueRate_bounds_witness :
    (0:ℝ) ≤ 1 ∧
    (|saturateTorqueRate 1 (fun _ => 3) (fun _ => 0) 0 - (fun _ : Fin 7 => (0:ℝ)) 0| ≤ 1 ∧
     (|(fun _ : Fin 7 => (3:ℝ)) 0 - (fun _ : Fin 7 => (0:ℝ)) 0| ≤ 1 →
        saturateTorqueRate 1 (fun _ => 3) (fun _ => 0) 0 = (fun _ : Fin 7 => (3:ℝ)) 0)) :=
  ⟨by norm_num, saturateTorqueRate_bounds 1 (fun _ => 3) (fun _ => 0) (by norm_num) 0⟩

/-- C1 counterexample: for the diagonal-mode message with all six gains
`1` and damping sentinel `bx = -1`, the stored damping target of axis 0
is `0.5·√1 = 0.5`, not `2·√1 = 2` as the claim states. -/
theorem diag_damping_not_two_sqrt_cex :
    (stiffnessParamCallback msgDiag1 targets0).cartesianDampingTarget 0 0 ≠
      2 * Real.sqrt (diagGain msgDiag1 0) := by
  have h : (stiffnessParamCallback msgDiag1 targets0).cartesianDampingTarget 0 0 =
      0.5 * Real.sqrt 1 := by
    unfold stiffnessParamCallback
    rw [if_pos (show msgDiag1.use_flag = 0 from rfl),
      if_pos (show msgDiag1.bx = -1 from rfl)]
    show diagDampingHalfSqrt msgDiag1 0 0 = 0.5 * Real.sqrt 1
    simp +decide [diagDampingHalfSqrt, mset, msgDiag1]
  rw [h]
  have hg : diagGain msgDiag1 0 = 1 := rfl
  rw [hg, Real.sqrt_one]
  norm_num

/-- C1 (amended): for every stiffness-update message in diagonal mode
(`use_flag = 0`) with six positive gains and no explicit damping supplied
(`bx = -1`), the stored damping target for each of the six axes equals
`0.5·√gain` of that axis — not `2·√gain` — and after one filter step with
`α = 1` the applied damping equals that same `0.5·√gain`. -/
theorem diag_damping_half_sqrt (msg : CartImpedanceStiffness) (s : CtrlTargets)
    (hflag : msg.use_flag = 0) (hbx : msg.bx = -1)
    (hpos : ∀ i : Fin 6, 0 < diagGain msg i) :
    ∀ i : Fin 6,
      (stiffnessParamCallback msg s).cartesianDampingTarget i i =
        0.5 * Real.sqrt (diagGain msg i) ∧
      ∀ c : ℝ, filterStep 1
          ((stiffnessParamCallback msg s).cartesianDampingTarget i i) c =
        0.5 * Real.sqrt (diagGain msg i) := by
  intro i
  have hmain : (stiffnessParamCallback msg s).cartesianDampingTarget i i =
      0.5 * Real.sqrt (diagGain msg i) := by
    unfold stiffnessParamCallback
    rw [if_pos hflag, if_pos hbx]
    show diagDampingHalfSqrt msg i i = 0.5 * Real.sqrt (diagGain msg i)
    fin_cases i <;> simp +decide [diagDampingHalfSqrt, mset, diagGain]
  refine ⟨hmain, fun c => ?_⟩
  rw [hmain]
  unfold filterStep
  ring

theorem diag_damping_half_sqrt_witness :
    ((stiffnessParamCallback msgDiag1 targets0).cartesianDampingTarget 1 1 =
      0.5 * Real.sqrt (diagGain msgDiag1 1)) ∧
    (filterStep 1
        ((stiffnessParamCallback msgDiag1 targets0).cartesianDampingTarget 1 1) 7 =
      0.5 * Real.sqrt (diagGain msgDiag1 1)) :=
  ⟨(diag_damping_half_sqrt msgDiag1 targets0 rfl rfl
      (by intro i; fin_cases i <;> norm_num [diagGain, msgDiag1]) 1).1,
   (diag_damping_half_sqrt msgDiag1 targets0 rfl rfl
      (by intro i; fin_cases i <;> norm_num [diagGain, msgDiag1]) 1).2 7⟩

theorem stiffnessCb_nsTarget (msg : CartImpedanceStiffness) (s : CtrlTargets) :
    (stiffnessParamCallback msg s).nullspaceStiffnessTarget =
      s.nullspaceStiffnessTarget := by
  unfold stiffnessParamCallback
  split <;> rfl

theorem stiffnessCb_fold_nsTarget (msgs : List CartImpedanceStiffness)
    (s : CtrlTargets) :
    (msgs.foldl (fun st m => stiffnessParamCallback m st) s).nullspaceStiffnessTarget =
      s.nullspaceStiffnessTarget := by
  induction msgs generalizing s with
  | nil => rfl
  | cons m ms ih =>
    rw [List.foldl_cons, ih (stiffnessParamCallback m s), stiffnessCb_nsTarget]

theorem filterStep_zero_iterate (α c : ℝ) (n : ℕ) :
    (fun x => filterStep α 0 x)^[n] c = (1 - α) ^ n * c := by
  induction n with
  | zero => simp
  | succ k ih =>
    rw [Function.iterate_succ_apply', ih]
    unfold filterStep
    ring

/-- C10: the stiffness-update callback never modifies the nullspace
stiffness target in either encoding mode; starting from its
initialization value `0` it stays `0` across every sequence of stiffness
updates, and the filtered nullspace stiffness applied by the control law
converges to zero (for any filter coefficient `0 < α ≤ 1`). -/
theorem nullspace_stiffness_target_invariant (gains : Fin 6 → ℝ) (α : ℝ)
    (hα0 : 0 < α) (hα1 : α ≤ 1) :
    (∀ (msg : CartImpedanceStiffness) (s : CtrlTargets),
      (stiffnessParamCallback msg s).nullspaceStiffnessTarget =
        s.nullspaceStiffnessTarget) ∧
    (∀ msgs : List CartImpedanceStiffness,
      (msgs.foldl (fun st m => stiffnessParamCallback m st)
          (ctrlInit gains)).nullspaceStiffnessTarget = 0) ∧
    (∀ (msgs : List CartImpedanceStiffness) (ns0 : ℝ),
      Filter.Tendsto
        (fun n => (fun c => filterStep α
            ((msgs.foldl (fun st m => stiffnessParamCallback m st)
                (ctrlInit gains)).nullspaceStiffnessTarget) c)^[n] ns0)
        Filter.atTop (nhds 0)) := by
  have hfold : ∀ msgs : List CartImpedanceStiffness,
      (msgs.foldl (fun st m => stiffnessParamCallback m st)
          (ctrlInit gains)).nullspaceStiffnessTarget = 0 := by
    intro msgs
    rw [stiffnessCb_fold_nsTarget]
    rfl
  refine ⟨fun msg s => stiffnessCb_nsTarget msg s, hfold, ?_⟩
  intro msgs ns0
  simp only [hfold, filterStep_zero_iterate]
  have habs : (0:ℝ) ≤ 1 - α := by linarith
  have hlt : (1:ℝ) - α < 1 := by linarith
  simpa using (tendsto_pow_atTop_nhds_zero_of_lt_one habs hlt).mul_const ns0

theorem nullspace_stiffness_target_invariant_witness :
    ((stiffnessParamCallback msgDiag1 targets0).nullspaceStiffnessTarget =
      targets0.nullspaceStiffnessTarget) ∧
    (([msgDiag1].foldl (fun st m => stiffnessParamCallback m st)
        (ctrlInit fun _ => 1)).nullspaceStiffnessTarget = 0) ∧
    Filter.Tendsto
      (fun n => (fun c => filterStep (1/2)
          (([msgDiag1].foldl (fun st m => stiffnessParamCallback m st)
              (ctrlInit fun _ => 1)).nullspaceStiffnessTarget) c)^[n] 1)
      Filter.atTop (nhds 0) :=
  ⟨(nullspace_stiffness_target_invariant (fun _ => 1) (1/2) (by norm_num)
      (by norm_num)).1 msgDiag1 targets0,
   (nullspace_stiffness_target_invariant (fun _ => 1) (1/2) (by norm_num)
      (by norm_num)).2.1 [msgDiag1],
   (nullspace_stiffness_target_invariant (fun _ => 1) (1/2) (by norm_num)
      (by norm_num)).2.2 [msgDiag1] 1⟩

theorem atan2_mem_of_nonneg (y x : ℝ) (hy : 0 ≤ y) (hx : 0 ≤ x) :
    0 ≤ atan2 y x ∧ atan2 y x ≤ Real.pi / 2 := by
  unfold atan2
  rcases lt_or_eq_of_le hx with hx' | hx'
  · rw [if_pos hx']
    constructor
    · have hq : (0:ℝ) ≤ y / x := div_nonneg hy hx
      have := Real.arctan_strictMono.monotone hq
      rwa [Real.arctan_zero] at this
    · exact (Real.arctan_lt_pi_div_two _).le
  · subst hx'
    rw [if_neg (lt_irrefl 0), if_neg (lt_irrefl 0)]
    by_cases hy' : 0 < y
    · rw [if_pos hy']
      exact ⟨by linarith [Real.pi_pos], le_refl _⟩
    · have hy0 : ¬ y < 0 := not_lt.mpr hy
      rw [if_neg hy', if_neg hy0]
      exact ⟨le_refl 0, by linarith [Real.pi_pos]⟩

theorem quatAngle_mem (q : Quat) : 0 ≤ quatAngle q ∧ quatAngle q ≤ Real.pi := by
  unfold quatAngle
  by_cases hn : quatVecNorm q = 0
  · rw [if_pos hn]
    exact ⟨le_refl 0, Real.pi_pos.le⟩
  · rw [if_neg hn]
    obtain ⟨h1, h2⟩ := atan2_mem_of_nonneg (quatVecNorm q) |q.w|
      (Real.sqrt_nonneg _) (abs_nonneg _)
    exact ⟨by linarith, by linarith⟩

/-- C8: for every measured orientation and target orientation whose
coefficient dot product is negative, the sign-corrected "difference"
quaternion yields a rotation of magnitude at most `π`, and the measured
orientations `q` and `-q` (the same rotation with opposite sign) produce
the identical error quaternion. -/
theorem orientation_error_sign_correction (d q : Quat) (h : qdot d q < 0) :
    |quatAngle (errorQuat d q)| ≤ Real.pi ∧
    errorQuat d q = errorQuat d (qneg q) := by
  constructor
  · obtain ⟨h1, h2⟩ := quatAngle_mem (errorQuat d q)
    rw [abs_of_nonneg h1]
    exact h2
  · unfold errorQuat
    have h1 : signCorrect d q = qneg q := by
      unfold signCorrect
      rw [if_pos h]
    have hdot : qdot d (qneg q) = -qdot d q := by
      simp [qdot, qneg]
      ring
    have h2 : signCorrect d (qneg q) = qneg q := by
      unfold signCorrect
      rw [if_neg]
      rw [hdot]
      linarith
    rw [h1, h2]

theorem orientation_error_sign_correction_witness :
    qdot qTarget qMeas < 0 ∧
    (|quatAngle (errorQuat qTarget qMeas)| ≤ Real.pi ∧
     errorQuat qTarget qMeas = errorQuat qTarget (qneg qMeas)) :=
  ⟨by norm_num [qdot, qTarget, qMeas],
   orientation_error_sign_correction qTarget qMeas
     (by norm_num [qdot, qTarget, qMeas])⟩

end Franka
